import Mathlib

/-!
Verification of the dynamic JSON flag value (`dynjson.go`, package flagz).

The Go source implements `DynJSONValue`: a container holding a pointer to a
struct instance, replaced wholesale by `Set` (JSON decode into a fresh zero
instance, optional validation, atomic pointer swap, optional notifier
dispatched in a goroutine) and read by `Get`.

The embedding is a state-passing model:
  * `GoKind` / `GoType` / `ReflectValue` model the slice of `reflect`
    that `DynJSON` inspects (the kind of the argument and of its pointee).
  * `DynJSONValue` is the container state: the stored type descriptor,
    the currently published instance (`ptr`), and the optional validator
    and notifier.
  * `JSONCodec` models the external `encoding/json` collaborator: `zero`
    is the fresh instance produced by `reflect.New(structType)`,
    `unmarshal input init` is `json.Unmarshal([]byte(input), &init)`
    (returning the populated instance or an error), `marshal` is
    `json.Marshal` and `marshalIndent` is `json.MarshalIndent`.
  * `DynJSONValue.Set` returns a `SetOutcome`: the successor state, the
    returned error (`none` on success), the list of arguments the
    validator was invoked on, and the list of `(oldValue, newValue)`
    pairs the notifier goroutine was dispatched with.  The Go `panic` in
    `DynJSON` is modelled as `Except.error`.
-/

/-- Kinds of Go values, mirroring the `reflect.Kind` cases `DynJSON`
distinguishes (`reflect.Ptr`, `reflect.Struct`) plus representatives of the
rejected kinds. -/
inductive GoKind where
  | ptr
  | struct_
  | slice
  | array
  | map_
  | int
  | string_
  | bool_
  | chan
  | func
  | interface_
  deriving DecidableEq, Repr

/-- A Go runtime type descriptor, as captured by `reflectVal.Type().Elem()`:
its kind together with a name. -/
structure GoType where
  kind : GoKind
  name : String
  deriving DecidableEq, Repr

/-- The reflective view of the `value` argument of `DynJSON`: the kind of the
supplied value and, when it is a pointer, the type it points to
(`reflectVal.Elem()` is only evaluated when the kind is `Ptr`, by Go
short-circuit evaluation). -/
structure ReflectValue where
  kind : GoKind
  elemType : GoType
  deriving DecidableEq, Repr

/-- The container from `dynjson.go`:

  type DynJSONValue struct \x7b
      structType reflect.Type
      ptr        unsafe.Pointer
      validator  func(interface\x7b\x7d) error
      notifier   func(oldValue interface\x7b\x7d, newValue interface\x7b\x7d)
  \x7d

The type-erased `unsafe.Pointer` slot is modelled as a value of the stored
struct type `α`; a Go `error` result is modelled as `Option String`
(`some msg` is a non-nil error). -/
structure DynJSONValue (α : Type) where
  structType : GoType
  ptr : α
  validator : Option (α → Option String)
  notifier : Option (α → α → Unit)

/-- Models the external `encoding/json` collaborator, bound to the stored
struct type `α`.  `zero` is the freshly allocated zero instance produced by
`reflect.New(d.structType).Interface()`; `unmarshal input init` is
`json.Unmarshal([]byte(input), init)`, returning the populated instance or
the decode error; `marshal` / `marshalIndent` are `json.Marshal` /
`json.MarshalIndent(v, "", "  ")`. -/
structure JSONCodec (α : Type) where
  zero : α
  unmarshal : String → α → Except String α
  marshal : α → Except String String
  marshalIndent : α → Except String String

/-- `DynJSON` (construction, lines 18-27): panics — modelled as
`Except.error` — unless the argument is a pointer to a struct; otherwise
builds the container with `ptr` aliasing the caller-supplied instance and
`structType` the pointee type.  The registration into the external pflag
flag set (`flagSet.VarPF`, `setFlagDynamic`) is out of scope. -/
def DynJSON {α : Type} (rv : ReflectValue) (value : α) : Except String (DynJSONValue α) :=
  if rv.kind ≠ GoKind.ptr ∨ rv.elemType.kind ≠ GoKind.struct_ then
    Except.error "DynJSON value must be a pointer to a struct"
  else
    Except.ok { structType := rv.elemType, ptr := value, validator := none, notifier := none }

/-- `Get` (lines 38-40): `atomic.LoadPointer(&d.ptr)` re-typed to the stored
struct type. -/
def DynJSONValue.Get {α : Type} (d : DynJSONValue α) : α :=
  d.ptr

/-- The observable outcome of one `Set` call: the successor container state,
the returned error, the arguments the validator was invoked on (in order),
and the `(oldValue, newValue)` argument pairs of the notifier goroutines
dispatched by the call. -/
structure SetOutcome (α : Type) where
  state : DynJSONValue α
  err : Option String
  validatorCalls : List α
  notified : List (α × α)

/-- `Set` (lines 46-61), mirrored step by step:

  someStruct := reflect.New(d.structType).Interface()      -- c.zero
  if err := json.Unmarshal([]byte(input), someStruct); err != nil \x7b return err \x7d
  if d.validator != nil \x7b if err := d.validator(someStruct); err != nil \x7b return err \x7d \x7d
  oldPtr := atomic.SwapPointer(&d.ptr, ...someStruct...)
  if d.notifier != nil \x7b go d.notifier(oldPtr-as-stored-type, someStruct) \x7d
  return nil
-/
def DynJSONValue.Set {α : Type} (c : JSONCodec α) (d : DynJSONValue α) (input : String) :
    SetOutcome α :=
  match c.unmarshal input c.zero with
  | Except.error e => ⟨d, some e, [], []⟩
  | Except.ok someStruct =>
    match d.validator with
    | some v =>
      match v someStruct with
      | some e => ⟨d, some e, [someStruct], []⟩
      | none =>
        ⟨{ d with ptr := someStruct }, none, [someStruct],
          match d.notifier with
          | some _ => [(d.ptr, someStruct)]
          | none => []⟩
    | none =>
      ⟨{ d with ptr := someStruct }, none, [],
        match d.notifier with
        | some _ => [(d.ptr, someStruct)]
        | none => []⟩

/-- `WithValidator` (lines 66-68). -/
def DynJSONValue.WithValidator {α : Type} (d : DynJSONValue α) (v : α → Option String) :
    DynJSONValue α :=
  { d with validator := some v }

/-- `WithNotifier` (lines 72-74). -/
def DynJSONValue.WithNotifier {α : Type} (d : DynJSONValue α) (n : α → α → Unit) :
    DynJSONValue α :=
  { d with notifier := some n }

/-- `String` (lines 92-98): `json.Marshal(d.Get())`, degrading to the
sentinel `"ERR"` on encode failure.  Named `StringVal` because `String`
would collide with the Lean string type inside the namespace. -/
def DynJSONValue.StringVal {α : Type} (c : JSONCodec α) (d : DynJSONValue α) : String :=
  match c.marshal (DynJSONValue.Get d) with
  | Except.error _ => "ERR"
  | Except.ok out => out

/-- `PrettyString` (lines 83-89): `json.MarshalIndent(d.Get(), "", "  ")`,
degrading to the sentinel `"ERR"` on encode failure. -/
def DynJSONValue.PrettyString {α : Type} (c : JSONCodec α) (d : DynJSONValue α) : String :=
  match c.marshalIndent (DynJSONValue.Get d) with
  | Except.error _ => "ERR"
  | Except.ok out => out

/-! ### Concrete test fixture

A struct with a single field, mirroring the spec scenario
`register with default \x7bTimeout: 30\x7d`, and a codec for it modelling
`encoding/json` on a handful of concrete inputs (including the documented
behaviour that unmarshalling JSON `null` has no effect on the target and
produces no error). -/

/-- A concrete stored struct type for instantiating the generic theorems. -/
structure TimeoutCfg where
  Timeout : Int
  deriving DecidableEq, Repr

/-- Concrete model of `json.Unmarshal` on `TimeoutCfg` for a handful of
inputs: `"null"` leaves the target unchanged and succeeds (documented
`encoding/json` behaviour), two well-formed objects populate the field,
anything else is a decode error. -/
def timeoutUnmarshal (s : String) (v : TimeoutCfg) : Except String TimeoutCfg :=
  if s = "null" then Except.ok v
  else if s = "\x7b\"Timeout\": 60\x7d" then Except.ok ⟨60⟩
  else if s = "\x7b\"Timeout\": -5\x7d" then Except.ok ⟨-5⟩
  else Except.error "invalid character"

/-- Concrete model of `json.Marshal` on `TimeoutCfg`. -/
def timeoutMarshal (v : TimeoutCfg) : Except String String :=
  Except.ok ("\x7b\"Timeout\":" ++ toString v.Timeout ++ "\x7d")

/-- Concrete model of `json.MarshalIndent` on `TimeoutCfg`. -/
def timeoutMarshalIndent (v : TimeoutCfg) : Except String String :=
  Except.ok ("\x7b\n  \"Timeout\": " ++ toString v.Timeout ++ "\n\x7d")

/-- The concrete codec for `TimeoutCfg`. -/
def timeoutCodec : JSONCodec TimeoutCfg :=
  { zero := ⟨0⟩
    unmarshal := timeoutUnmarshal
    marshal := timeoutMarshal
    marshalIndent := timeoutMarshalIndent }

/-- A codec whose encoder always fails, modelling `json.Marshal` on a struct
containing an unmarshalable field (e.g. a channel). -/
def failingMarshalCodec : JSONCodec TimeoutCfg :=
  { zero := ⟨0⟩
    unmarshal := timeoutUnmarshal
    marshal := fun _ => Except.error "json: unsupported type"
    marshalIndent := fun _ => Except.error "json: unsupported type" }

/-- The `reflect` view of a (non-nil) `*TimeoutCfg` argument. -/
def ptrToTimeoutCfg : ReflectValue :=
  ⟨GoKind.ptr, ⟨GoKind.struct_, "TimeoutCfg"⟩⟩

/-- A freshly registered container seeded with `\x7bTimeout: 30\x7d`. -/
def seededContainer : DynJSONValue TimeoutCfg :=
  { structType := ⟨GoKind.struct_, "TimeoutCfg"⟩
    ptr := ⟨30⟩
    validator := none
    notifier := none }

/-- The seeded container with a validator rejecting non-positive timeouts
attached, mirroring the spec scenario. -/
def validatedContainer : DynJSONValue TimeoutCfg :=
  DynJSONValue.WithValidator seededContainer
    (fun v => if v.Timeout ≤ 0 then some "timeout must be positive" else none)

/-- The seeded container with a (trivial) notifier attached. -/
def notifyingContainer : DynJSONValue TimeoutCfg :=
  DynJSONValue.WithNotifier seededContainer (fun _ _ => ())

/-! ### Claims -/

/-- C1: for every input string whose JSON decode into the container's stored
struct type succeeds and (when a validator is attached) is accepted by the
validator, `Set input` returns no error and every subsequent `Get` returns a
value structurally equal to the decoded instance of that input. -/
theorem dynjson_set_success_get {α : Type} (c : JSONCodec α) (d : DynJSONValue α)
    (input : String) (v : α)
    (hdec : c.unmarshal input c.zero = Except.ok v)
    (hval : ∀ f, d.validator = some f → f v = none) :
    (DynJSONValue.Set c d input).err = none ∧
    DynJSONValue.Get (DynJSONValue.Set c d input).state = v := by
  simp only [DynJSONValue.Set, DynJSONValue.Get, hdec]
  cases hd : d.validator with
  | none => simp
  | some f => simp [hval f hd]

/-- Witness for C1: setting `'\x7b"Timeout": 60\x7d'` on the freshly seeded
container succeeds and `Get` returns `\x7bTimeout: 60\x7d`. -/
theorem dynjson_set_success_get_witness :
    (DynJSONValue.Set timeoutCodec seededContainer "\x7b\"Timeout\": 60\x7d").err = none ∧
    DynJSONValue.Get
      (DynJSONValue.Set timeoutCodec seededContainer "\x7b\"Timeout\": 60\x7d").state =
      ⟨60⟩ :=
  dynjson_set_success_get timeoutCodec seededContainer "\x7b\"Timeout\": 60\x7d" ⟨60⟩
    rfl (fun f h => by simp [seededContainer] at h)

/-- C2: for every input string that fails to decode, `Set input` returns the
decode error, the container state (hence the value observed by `Get`) is
unchanged, and the notifier is not dispatched. -/
theorem dynjson_set_decode_error {α : Type} (c : JSONCodec α) (d : DynJSONValue α)
    (input : String) (e : String)
    (hdec : c.unmarshal input c.zero = Except.error e) :
    (DynJSONValue.Set c d input).err = some e ∧
    (DynJSONValue.Set c d input).state = d ∧
    (DynJSONValue.Set c d input).notified = [] := by
  simp [DynJSONValue.Set, hdec]

/-- Witness for C2: setting the malformed input `'\x7b"Timeout": "oops"\x7d'`
returns the decode error and leaves the seeded container untouched. -/
theorem dynjson_set_decode_error_witness :
    (DynJSONValue.Set timeoutCodec seededContainer "\x7b\"Timeout\": \"oops\"\x7d").err =
      some "invalid character" ∧
    (DynJSONValue.Set timeoutCodec seededContainer "\x7b\"Timeout\": \"oops\"\x7d").state =
      seededContainer ∧
    (DynJSONValue.Set timeoutCodec seededContainer "\x7b\"Timeout\": \"oops\"\x7d").notified =
      [] :=
  dynjson_set_decode_error timeoutCodec seededContainer "\x7b\"Timeout\": \"oops\"\x7d"
    "invalid character" rfl

/-- C3: when a validator is attached, `Set` invokes it exactly once, on the
freshly decoded candidate, after every successful decode; if the validator
returns an error, `Set` returns exactly that error, the container state is
unchanged, and the notifier is not dispatched. -/
theorem dynjson_set_validator {α : Type} (c : JSONCodec α) (d : DynJSONValue α)
    (input : String) (v : α) (f : α → Option String)
    (hdec : c.unmarshal input c.zero = Except.ok v)
    (hvld : d.validator = some f) :
    (DynJSONValue.Set c d input).validatorCalls = [v] ∧
    (∀ e, f v = some e →
      (DynJSONValue.Set c d input).err = some e ∧
      (DynJSONValue.Set c d input).state = d ∧
      (DynJSONValue.Set c d input).notified = []) := by
  simp only [DynJSONValue.Set, hdec, hvld]
  refine ⟨?_, ?_⟩
  · cases hf : f v <;> simp
  · intro e he
    simp [he]

/-- Witness for C3: setting `'\x7b"Timeout": -5\x7d'` on the validated
container invokes the validator exactly once on `\x7bTimeout: -5\x7d`,
returns the validator's error, and leaves the container untouched with no
notifier dispatch. -/
theorem dynjson_set_validator_witness :
    (DynJSONValue.Set timeoutCodec validatedContainer
      "\x7b\"Timeout\": -5\x7d").validatorCalls = [(⟨-5⟩ : TimeoutCfg)] ∧
    (DynJSONValue.Set timeoutCodec validatedContainer "\x7b\"Timeout\": -5\x7d").err =
      some "timeout must be positive" ∧
    (DynJSONValue.Set timeoutCodec validatedContainer "\x7b\"Timeout\": -5\x7d").state =
      validatedContainer ∧
    (DynJSONValue.Set timeoutCodec validatedContainer "\x7b\"Timeout\": -5\x7d").notified =
      [] := by
  have h := dynjson_set_validator timeoutCodec validatedContainer "\x7b\"Timeout\": -5\x7d"
    (⟨-5⟩ : TimeoutCfg)
    (fun v => if v.Timeout ≤ 0 then some "timeout must be positive" else none)
    rfl rfl
  exact ⟨h.1, h.2 "timeout must be positive" rfl⟩

/-- C5: when a notifier is attached, each successful `Set` dispatches the
notifier exactly once, with `oldValue` equal to the value published before
the call and `newValue` equal to the value the call just published; a `Set`
that returns an error dispatches it zero times. -/
theorem dynjson_notifier_once {α : Type} (c : JSONCodec α) (d : DynJSONValue α)
    (input : String) (n : α → α → Unit)
    (hn : d.notifier = some n) :
    ((DynJSONValue.Set c d input).err = none →
      (DynJSONValue.Set c d input).notified =
        [(DynJSONValue.Get d, DynJSONValue.Get (DynJSONValue.Set c d input).state)]) ∧
    ((DynJSONValue.Set c d input).err ≠ none →
      (DynJSONValue.Set c d input).notified = []) := by
  simp only [DynJSONValue.Set, DynJSONValue.Get]
  cases hu : c.unmarshal input c.zero with
  | error e => simp
  | ok v =>
    cases hv : d.validator with
    | none => simp [hn]
    | some f =>
      cases hf : f v with
      | none => simp [hn, hf]
      | some e => simp [hf]

/-- Witness for C5: on the notifying container, the successful update to
`\x7bTimeout: 60\x7d` dispatches exactly `[(\x7b30\x7d, \x7b60\x7d)]`, and a
failing update dispatches nothing. -/
theorem dynjson_notifier_once_witness :
    (DynJSONValue.Set timeoutCodec notifyingContainer "\x7b\"Timeout\": 60\x7d").notified =
      [(⟨30⟩, ⟨60⟩)] ∧
    (DynJSONValue.Set timeoutCodec notifyingContainer "bogus").notified = [] := by
  refine ⟨?_, ?_⟩
  · exact (dynjson_notifier_once timeoutCodec notifyingContainer
      "\x7b\"Timeout\": 60\x7d" (fun _ _ => ()) rfl).1 rfl
  · exact (dynjson_notifier_once timeoutCodec notifyingContainer
      "bogus" (fun _ _ => ()) rfl).2 (fun h => Option.noConfusion h)

/-- C6: the stored type descriptor is fixed at construction (`DynJSON` sets
it to the pointee type of its argument) and is never changed by `Set`,
`WithValidator` or `WithNotifier`; and a successful `Set` publishes exactly
the freshly decoded instance — in this pure model values are immutable, so
the previously published instance (still reachable through an earlier `Get`)
is never modified. -/
theorem dynjson_type_fixed_fresh {α : Type} (c : JSONCodec α) (d : DynJSONValue α)
    (input : String) (f : α → Option String) (n : α → α → Unit) :
    (DynJSONValue.Set c d input).state.structType = d.structType ∧
    (DynJSONValue.WithValidator d f).structType = d.structType ∧
    (DynJSONValue.WithNotifier d n).structType = d.structType ∧
    (∀ rv (value : α) d0, DynJSON rv value = Except.ok d0 →
      d0.structType = rv.elemType) ∧
    (∀ v, c.unmarshal input c.zero = Except.ok v →
      (DynJSONValue.Set c d input).err = none →
      (DynJSONValue.Set c d input).state.ptr = v) := by
  refine ⟨?_, rfl, rfl, ?_, ?_⟩
  · cases hu : c.unmarshal input c.zero with
    | error e => simp [DynJSONValue.Set, hu]
    | ok v =>
      cases hv : d.validator with
      | none => simp [DynJSONValue.Set, hu, hv]
      | some g =>
        cases hg : g v with
        | none => simp [DynJSONValue.Set, hu, hv, hg]
        | some e => simp [DynJSONValue.Set, hu, hv, hg]
  · intro rv value d0 h
    unfold DynJSON at h
    split at h
    · exact Except.noConfusion h
    · cases h
      rfl
  · intro v hu herr
    simp only [DynJSONValue.Set, hu] at herr ⊢
    cases hv : d.validator with
    | none => simp
    | some g =>
      simp only [hv] at herr ⊢
      cases hg : g v with
      | none => simp
      | some e => simp [hg] at herr

/-- Witness for C6: instantiated on the seeded container and the update to
`\x7bTimeout: 60\x7d`. -/
theorem dynjson_type_fixed_fresh_witness :
    (DynJSONValue.Set timeoutCodec seededContainer
      "\x7b\"Timeout\": 60\x7d").state.ptr = (⟨60⟩ : TimeoutCfg) :=
  (dynjson_type_fixed_fresh timeoutCodec seededContainer "\x7b\"Timeout\": 60\x7d"
    (fun _ => none) (fun _ _ => ())).2.2.2.2 ⟨60⟩ rfl rfl

/-- C7: `DynJSON` panics (modelled as `Except.error`) exactly when its
argument is not a pointer to a struct; every pointer-to-struct argument
passes the check without panicking. -/
theorem dynjson_construct_panics_iff {α : Type} (rv : ReflectValue) (value : α) :
    DynJSON rv value = Except.error "DynJSON value must be a pointer to a struct" ↔
    ¬(rv.kind = GoKind.ptr ∧ rv.elemType.kind = GoKind.struct_) := by
  unfold DynJSON
  by_cases h : rv.kind = GoKind.ptr ∧ rv.elemType.kind = GoKind.struct_
  · rw [if_neg (by tauto)]
    simp [h]
  · rw [if_pos (by tauto)]
    simp [h]

/-- C8: the container returned by a successful `DynJSON` registration holds,
as its published value, exactly the caller-supplied seed instance, so `Get`
before any successful `Set` returns it. -/
theorem dynjson_initial_value {α : Type} (rv : ReflectValue) (value : α)
    (d : DynJSONValue α) (h : DynJSON rv value = Except.ok d) :
    DynJSONValue.Get d = value := by
  unfold DynJSON at h
  split at h
  · exact Except.noConfusion h
  · cases h
    rfl

/-- Witness for C8: registering `*TimeoutCfg` seeded with `\x7bTimeout: 30\x7d`
yields a container whose `Get` returns that seed. -/
theorem dynjson_initial_value_witness :
    DynJSONValue.Get
      (⟨⟨GoKind.struct_, "TimeoutCfg"⟩, ⟨30⟩, none, none⟩ : DynJSONValue TimeoutCfg) =
      (⟨30⟩ : TimeoutCfg) :=
  dynjson_initial_value ptrToTimeoutCfg (⟨30⟩ : TimeoutCfg)
    (⟨⟨GoKind.struct_, "TimeoutCfg"⟩, ⟨30⟩, none, none⟩ : DynJSONValue TimeoutCfg) rfl

/-- C9: `String` returns the compact encoding of the currently published
value and `PrettyString` the indented encoding; when encoding fails, both
return the fixed sentinel `"ERR"` instead of propagating the error. -/
theorem dynjson_render {α : Type} (c : JSONCodec α) (d : DynJSONValue α) :
    (∀ s, c.marshal (DynJSONValue.Get d) = Except.ok s →
      DynJSONValue.StringVal c d = s) ∧
    (∀ e, c.marshal (DynJSONValue.Get d) = Except.error e →
      DynJSONValue.StringVal c d = "ERR") ∧
    (∀ s, c.marshalIndent (DynJSONValue.Get d) = Except.ok s →
      DynJSONValue.PrettyString c d = s) ∧
    (∀ e, c.marshalIndent (DynJSONValue.Get d) = Except.error e →
      DynJSONValue.PrettyString c d = "ERR") := by
  refine ⟨?_, ?_, ?_, ?_⟩ <;> intro x hx <;>
    simp [DynJSONValue.StringVal, DynJSONValue.PrettyString, hx]

/-- Witness for C9: on the seeded container, rendering with the working
codec produces the encodings of `\x7bTimeout: 30\x7d`, and rendering with the
codec whose encoder fails produces the sentinel `"ERR"`. -/
theorem dynjson_render_witness :
    DynJSONValue.StringVal timeoutCodec seededContainer = "\x7b\"Timeout\":30\x7d" ∧
    DynJSONValue.StringVal failingMarshalCodec seededContainer = "ERR" ∧
    DynJSONValue.PrettyString timeoutCodec seededContainer =
      "\x7b\n  \"Timeout\": 30\n\x7d" ∧
    DynJSONValue.PrettyString failingMarshalCodec seededContainer = "ERR" :=
  ⟨(dynjson_render timeoutCodec seededContainer).1 _ rfl,
   (dynjson_render failingMarshalCodec seededContainer).2.1 _ rfl,
   (dynjson_render timeoutCodec seededContainer).2.2.1 _ rfl,
   (dynjson_render failingMarshalCodec seededContainer).2.2.2 _ rfl⟩

/-- C10: since unmarshalling JSON `null` has no effect on its target and
produces no error (documented `encoding/json` behaviour, taken as a
hypothesis on the codec), `Set "null"` on a container without a validator —
or whose validator accepts the zero value — succeeds and publishes the zero
value of the stored struct type. -/
theorem dynjson_set_null_zero {α : Type} (c : JSONCodec α) (d : DynJSONValue α)
    (hnull : ∀ a, c.unmarshal "null" a = Except.ok a)
    (hval : ∀ f, d.validator = some f → f c.zero = none) :
    (DynJSONValue.Set c d "null").err = none ∧
    DynJSONValue.Get (DynJSONValue.Set c d "null").state = c.zero := by
  simp only [DynJSONValue.Set, DynJSONValue.Get, hnull c.zero]
  cases hd : d.validator with
  | none => simp
  | some f => simp [hval f hd]

/-- Witness for C10: `Set "null"` on the seeded container (no validator)
succeeds and publishes `\x7bTimeout: 0\x7d`. -/
theorem dynjson_set_null_zero_witness :
    (DynJSONValue.Set timeoutCodec seededContainer "null").err = none ∧
    DynJSONValue.Get (DynJSONValue.Set timeoutCodec seededContainer "null").state =
      (⟨0⟩ : TimeoutCfg) :=
  dynjson_set_null_zero timeoutCodec seededContainer (fun a => rfl)
    (fun f h => by simp [seededContainer] at h)
